import Mathlib

/-!
Shallow embedding of the acadex-backend attendance pipeline.

The embedding follows `src/index.js` (the primary snapshot) and
`src/unnamed/part_001` (the snapshot that carries the duplicate-check /
XP-award variant of `markAttendance`).  Firestore documents become Lean
structures with `Option` fields for possibly-absent fields, collections
become finite maps `String → Option Doc`, and each Express route becomes a
function from a request and a database to an HTTP result paired with the
database after all writes.  JavaScript string splitting, `parseInt`,
truthiness and Firestore `increment` / `arrayUnion` semantics are modelled
explicitly below.
-/

namespace Acadex

/-! ## JavaScript string and number helpers -/

/-- JS `str.split(sep)` for a single-character separator, on the character
list of the string.  `"".split` gives `[""]`, a trailing separator yields a
trailing empty segment, exactly as in JS. -/
def splitOnChar (sep : Char) : List Char → List (List Char)
  | [] => [[]]
  | c :: cs =>
    if c = sep then [] :: splitOnChar sep cs
    else
      match splitOnChar sep cs with
      | [] => [[c]]
      | p :: ps => (c :: p) :: ps

/-- Value of a decimal digit character. -/
def digitVal (c : Char) : Nat := c.toNat - '0'.toNat

/-- Value of a hexadecimal digit character, `none` if not a hex digit. -/
def hexVal (c : Char) : Option Nat :=
  if c.isDigit then some (digitVal c)
  else if 'a' ≤ c ∧ c ≤ 'f' then some (c.toNat - 'a'.toNat + 10)
  else if 'A' ≤ c ∧ c ≤ 'F' then some (c.toNat - 'A'.toNat + 10)
  else none

/-- Fold a digit list into a number in base `b` with digit valuation `f`. -/
def digitsToNat (b : Nat) (f : Char → Nat) (ds : List Char) : Nat :=
  ds.foldl (fun acc c => acc * b + f c) 0

/-- Longest decimal-digit prefix, `none` when there is no leading digit
(JS `parseInt` yields `NaN` then). -/
def leadingDecimal (cs : List Char) : Option Nat :=
  let ds := cs.takeWhile Char.isDigit
  if ds.isEmpty then none else some (digitsToNat 10 digitVal ds)

/-- Longest hexadecimal-digit prefix, `none` when empty. -/
def leadingHex (cs : List Char) : Option Nat :=
  let ds := cs.takeWhile (fun c => (hexVal c).isSome)
  if ds.isEmpty then none
  else some (digitsToNat 16 (fun c => (hexVal c).getD 0) ds)

/-- Unsigned part of JS `parseInt` with no radix argument: a `0x`/`0X`
prefix switches to hexadecimal, otherwise the leading decimal digits are
taken; `none` models `NaN`. -/
def parseUnsigned : List Char → Option Nat
  | '0' :: c :: rest =>
    if c = 'x' ∨ c = 'X' then leadingHex rest
    else leadingDecimal ('0' :: c :: rest)
  | cs => leadingDecimal cs

/-- JS `parseInt(s)`: skip leading whitespace, an optional sign, then the
longest digit prefix; `none` models `NaN`. -/
def jsParseInt (s : String) : Option Int :=
  let cs := s.data.dropWhile Char.isWhitespace
  match cs with
  | '-' :: rest => (parseUnsigned rest).map (fun n => -(n : Int))
  | '+' :: rest => (parseUnsigned rest).map (fun n => (n : Int))
  | _ => (parseUnsigned cs).map (fun n => (n : Int))

/-- JS truthiness of an optional string: `undefined` and `""` are falsy. -/
def jsTruthyStr : Option String → Bool
  | none => false
  | some s => !s.isEmpty

/-- JS `a || b` for an optional string default: falsy (absent or empty)
falls through to the default. -/
def jsOrStr (o : Option String) (d : String) : String :=
  match o with
  | none => d
  | some s => if s.isEmpty then d else s

/-! ## Rotating-QR token validation (src/index.js lines 326-328)

```js
const [realSessionId, timestamp] = sessionId.split('|');
if (!realSessionId) return res.status(400).json: error "Invalid QR"
if (timestamp && (Date.now() - parseInt(timestamp))/1000 > 15)
  return res.status(400).json: error "QR Expired!"
```
`(now - t)/1000 > 15` over JS numbers coincides with `now - t > 15000`
exactly (the quotient of an integer by 1000 rounds to a float on the same
side of 15), and a `NaN` from `parseInt` makes the comparison false. -/

inductive TokenCheck where
  | invalid
  | expired
  | okTok (realSessionId : String)
deriving Repr, DecidableEq

/-- Does `(Date.now() - parseInt(timestamp))/1000 > 15` hold?  A `NaN`
timestamp (`jsParseInt = none`) compares false. -/
def qrExpired (now : Int) (ts : String) : Bool :=
  match jsParseInt ts with
  | none => false
  | some t => decide (15000 < now - t)

/-- The token-validation step of `markAttendance` in src/index.js. -/
def tokenCheck (now : Int) (sessionId : String) : TokenCheck :=
  let parts := splitOnChar '|' sessionId.data
  let realSessionId : List Char := parts.headD []
  let timestamp : Option (List Char) := (parts.drop 1).head?
  if realSessionId.isEmpty then .invalid
  else
    match timestamp with
    | none => .okTok (String.mk realSessionId)
    | some ts =>
      if ts.isEmpty then .okTok (String.mk realSessionId)
      else if qrExpired now (String.mk ts) then .expired
      else .okTok (String.mk realSessionId)

example : tokenCheck 20000 (String.mk ['S', '1', '|', '0']) = .expired := by decide
example : tokenCheck 15000 (String.mk ['S', '1', '|', '0']) = .okTok "S1" := by decide
example : tokenCheck 20000 "S1" = .okTok "S1" := by decide
example : tokenCheck 0 "|123" = .invalid := by decide
example : tokenCheck 99999999 "S1|abc" = .okTok "S1" := by decide

/-! ## Data model

Firestore documents, with `Option` for fields a document may lack.
Coordinates are drawn from an arbitrary linear ordered field `α`, so that
the same route definitions serve both exact evaluation (at `ℚ`) and the
real-valued haversine analysis (at `ℝ`). -/

structure GeoPoint (α : Type) where
  latitude : α
  longitude : α
deriving Repr, DecidableEq

/-- A `live_sessions` document. -/
structure SessionDoc (α : Type) where
  isActive : Bool
  location : Option (GeoPoint α)
  subject : Option String
  instituteId : Option String
  department : Option String
deriving Repr, DecidableEq

/-- A `users` document (the fields the embedded routes touch). -/
structure UserDoc where
  email : Option String
  firstName : Option String
  lastName : Option String
  rollNo : Option String
  instituteId : Option String
  xp : Option Int
  badges : Option (List String)
  attendanceCount : Option Int
  lastTaskTime : Option Int
  lastQuickTaskTime : Option Int
  hasResumeData : Bool
deriving Repr, DecidableEq

/-- An `attendance` document (union of the fields written by the two
`markAttendance` snapshots). -/
structure AttendanceDoc where
  sessionId : String
  subject : Option String
  studentId : String
  studentEmail : Option String
  firstName : Option String
  lastName : Option String
  rollNo : Option String
  instituteId : Option String
  timestamp : Int
  status : String
deriving Repr, DecidableEq

/-- A `department_stats` document. -/
structure StatsDoc where
  totalClasses : Option Int
  instituteId : Option String
  department : Option String
deriving Repr, DecidableEq

/-- A quiz attempt record under `userProgress/{userId}/attempts`. -/
structure AttemptDoc where
  userId : String
  quizId : String
  score : Option Int
deriving Repr, DecidableEq

/-- The Firestore state the embedded routes read and write. -/
structure DB (α : Type) where
  sessions : String → Option (SessionDoc α)
  users : String → Option UserDoc
  attendance : String → Option AttendanceDoc
  deptStats : String → Option StatsDoc
  attempts : List AttemptDoc

/-- Point update of a keyed collection. -/
def upd {β : Type} (m : String → Option β) (k : String) (v : β) :
    String → Option β :=
  fun k2 => if k2 = k then some v else m k2

/-- The user document `createUser` writes (src/index.js line 306):
`xp: 0, badges: []` alongside the profile fields. -/
def initialUser (email firstName lastName rollNo instituteId : Option String) :
    UserDoc :=
  { email := email, firstName := firstName, lastName := lastName
    rollNo := rollNo, instituteId := instituteId
    xp := some 0, badges := some []
    attendanceCount := none, lastTaskTime := none, lastQuickTaskTime := none
    hasResumeData := false }

/-- HTTP responses: `ok` is a 200 with a message, `err` a status code with
an error string.  Uncaught exceptions reach the catch-all handler, which
responds 500; they are modelled as `err 500 "TypeError"`. -/
inductive HttpResult where
  | ok (message : String)
  | err (status : Nat) (error : String)
deriving Repr, DecidableEq

/-- The resolved bearer credential: header absent, header present but not
verifiable (`verifyIdToken` throws), or verified to a student uid. -/
inductive Auth where
  | missing
  | invalid
  | valid (uid : String)
deriving Repr, DecidableEq

/-! ## Configuration (src/index.js lines 124-125)

```js
const DEMO_MODE = (process.env.DEMO_MODE || "true") === "true";
const ACCEPTABLE_RADIUS_METERS = Number(process.env.ACCEPTABLE_RADIUS_METERS || 200);
```
`DEMO_MODE = true` skips the geofence check entirely. -/

/-- `DEMO_MODE` as computed from the environment variable. -/
def DEMO_MODE (env : Option String) : Bool :=
  jsOrStr env "true" == "true"

/-! ## Geofence decision (src/index.js lines 335-339)

```js
if (!DEMO_MODE) {
    if (!session.location || !studentLocation) return res.status(400)...
    const dist = getDistance(...);
    if (dist > ACCEPTABLE_RADIUS_METERS) return res.status(403)
      .json({ error: `Too far! (${Math.round(dist)}m)` });
}
```
The distance function is a parameter so that the decision logic can be
analysed over `ℝ` with the haversine formula while the state-machine
claims evaluate over `ℚ`. -/

inductive LocCheck where
  | skip
  | missingLoc
  | tooFar (roundedMeters : Int)
  | okLoc
deriving Repr, DecidableEq

def locationCheck {α : Type} [LinearOrderedField α] [FloorRing α]
    (demoMode : Bool) (dist : α → α → α → α → α) (radius : α)
    (sessionLoc deviceLoc : Option (GeoPoint α)) : LocCheck :=
  if demoMode then .skip
  else
    match sessionLoc, deviceLoc with
    | some sl, some dl =>
      let d := dist sl.latitude sl.longitude dl.latitude dl.longitude
      if radius < d then .tooFar (round d) else .okLoc
    | _, _ => .missingLoc

/-! ## Badges (src/index.js lines 169-188, identical in part_001) -/

structure BadgeRule where
  id : String
  threshold : Int
deriving Repr, DecidableEq

def BADGE_RULES : List BadgeRule :=
  [⟨"novice", 100⟩, ⟨"enthusiast", 500⟩, ⟨"expert", 1000⟩, ⟨"master", 2000⟩]

/-- Firestore `FieldValue.arrayUnion(...new)` applied to a stored array:
append each new element not already present, in order. -/
def arrayUnion (old new : List String) : List String :=
  new.foldl (fun acc b => if acc.contains b then acc else acc ++ [b]) old

/-- The pure content of `checkAndAwardBadges`: the list of badge ids newly
earned at `currentXp` given the currently held `currentBadges` (an absent
field hits the `= []` default parameter). -/
def checkAndAwardBadges (currentXp : Int) (currentBadges : Option (List String)) :
    List String :=
  let cur := currentBadges.getD []
  (BADGE_RULES.filter
    (fun b => currentXp ≥ b.threshold && !cur.contains b.id)).map (·.id)

/-- The badge write of `checkAndAwardBadges`: when any badge is newly
earned, `badges` is updated with `arrayUnion`; otherwise no write occurs. -/
def applyBadgeAward (u : UserDoc) (newBadges : List String) : UserDoc :=
  if newBadges.isEmpty then u
  else { u with badges := some (arrayUnion (u.badges.getD []) newBadges) }

/-- The effective XP delta of `verifyQuickTask`
(`const points = xpReward || 30`; `0` is falsy in JS). -/
def quickTaskPoints (xpReward : Option Int) : Int :=
  match xpReward with
  | none => 30
  | some v => if v = 0 then 30 else v

/-- The write pattern shared by the XP-awarding routes: `update` the user
document to `u1`, then run the badge write of `checkAndAwardBadges` at
`newXp` against the snapshot badges (no write when nothing is earned). -/
def awardWrite {α : Type} (db : DB α) (u0 : String)
    (snapshotBadges : Option (List String)) (u1 : UserDoc) (newXp : Int) :
    DB α :=
  let db1 := { db with users := upd db.users u0 u1 }
  let newBadges := checkAndAwardBadges newXp snapshotBadges
  if newBadges.isEmpty then db1
  else { db1 with users := upd db1.users u0 (applyBadgeAward u1 newBadges) }

example : checkAndAwardBadges 150 (some []) = ["novice"] := by decide
example : checkAndAwardBadges 600 (some ["novice"]) = ["enthusiast"] := by decide
example : checkAndAwardBadges 2500 none =
    ["novice", "enthusiast", "expert", "master"] := by decide
example : checkAndAwardBadges 99 (some []) = [] := by decide

/-! ## Route: POST /markAttendance, src/index.js lines 317-360

No duplicate check: the attendance document is `set` (overwritten) and
`attendanceCount` incremented unconditionally on every accepted
submission; no XP or badge is awarded on this route in this snapshot.
Firestore rejects `undefined` field values in `set`, so a profile missing
one of the copied fields makes the write throw (500) before any state
change. -/

def markAttendanceIndex {α : Type} [LinearOrderedField α] [FloorRing α]
    (dist : α → α → α → α → α) (demoMode : Bool) (radius : α) (now : Int)
    (auth : Auth) (sessionId : Option String)
    (studentLocation : Option (GeoPoint α)) (db : DB α) :
    HttpResult × DB α :=
  match auth with
  | .missing => (.err 401 "Missing token", db)
  | .invalid => (.err 500 "TypeError", db)
  | .valid studentUid =>
    match sessionId with
    | none => (.err 500 "TypeError", db)
    | some sid =>
      match tokenCheck now sid with
      | .invalid => (.err 400 "Invalid QR", db)
      | .expired => (.err 400 "QR Expired!", db)
      | .okTok realSessionId =>
        match db.sessions realSessionId with
        | none => (.err 404 "Session not active", db)
        | some session =>
          if !session.isActive then (.err 404 "Session not active", db)
          else
            match locationCheck demoMode dist radius session.location
                studentLocation with
            | .missingLoc => (.err 400 "Location missing", db)
            | .tooFar z => (.err 403 ("Too far! (" ++ toString z ++ "m)"), db)
            | _ =>
              match db.users studentUid with
              | none => (.err 500 "TypeError", db)
              | some u =>
                if u.email.isNone || u.firstName.isNone || u.lastName.isNone
                    || u.rollNo.isNone || u.instituteId.isNone then
                  (.err 500 "TypeError", db)
                else
                  let key := realSessionId ++ "_" ++ studentUid
                  let att : AttendanceDoc :=
                    { sessionId := realSessionId
                      subject := some (jsOrStr session.subject "Class")
                      studentId := studentUid
                      studentEmail := u.email, firstName := u.firstName
                      lastName := u.lastName, rollNo := u.rollNo
                      instituteId := u.instituteId
                      timestamp := now, status := "Present" }
                  let db1 := { db with attendance := upd db.attendance key att }
                  let u1 := { u with
                    attendanceCount := some (u.attendanceCount.getD 0 + 1) }
                  let db2 := { db1 with users := upd db1.users studentUid u1 }
                  (.ok "Attendance Marked!", db2)

/-! ## Route: POST /markAttendance, src/unnamed/part_001 lines 92-128

This snapshot performs no token validation (the split result is used
directly), but gates the write on a duplicate check of the composite
`attendance` key, and on first-time creation awards +10 XP and evaluates
badges.  An empty document id makes the `.doc` call throw (500). -/

def markAttendanceP001 {α : Type} [LinearOrderedField α]
    (dist : α → α → α → α → α) (demoMode : Bool) (radius : α) (now : Int)
    (auth : Auth) (sessionId : Option String)
    (studentLocation : Option (GeoPoint α)) (db : DB α) :
    HttpResult × DB α :=
  match auth with
  | .missing => (.err 401 "Missing token", db)
  | .invalid => (.err 500 "TypeError", db)
  | .valid studentUid =>
    match sessionId with
    | none => (.err 500 "TypeError", db)
    | some sid =>
      let realSessionId := String.mk ((splitOnChar '|' sid.data).headD [])
      if realSessionId.isEmpty then (.err 500 "TypeError", db)
      else
        match db.sessions realSessionId with
        | none => (.err 404 "Session not active", db)
        | some session =>
          if !session.isActive then (.err 404 "Session not active", db)
          else
            let locResult : Option HttpResult :=
              if demoMode then none
              else
                match session.location, studentLocation with
                | some sl, some dl =>
                  if radius <
                      dist sl.latitude sl.longitude dl.latitude dl.longitude
                  then some (.err 403 "Too far!") else none
                | _, _ => some (.err 500 "TypeError")
            match locResult with
            | some r => (r, db)
            | none =>
              let key := realSessionId ++ "_" ++ studentUid
              if (db.attendance key).isSome then (.ok "Already marked!", db)
              else
                match db.users studentUid with
                | none => (.err 500 "TypeError", db)
                | some u =>
                  if session.subject.isNone || u.firstName.isNone
                      || u.lastName.isNone || u.rollNo.isNone then
                    (.err 500 "TypeError", db)
                  else
                    let att : AttendanceDoc :=
                      { sessionId := realSessionId
                        subject := session.subject
                        studentId := studentUid
                        studentEmail := none, firstName := u.firstName
                        lastName := u.lastName, rollNo := u.rollNo
                        instituteId := none
                        timestamp := now, status := "Present" }
                    let db1 :=
                      { db with attendance := upd db.attendance key att }
                    let newXp := u.xp.getD 0 + 10
                    let u1 := { u with xp := some newXp }
                    (.ok "Attendance Marked! +10 XP",
                      awardWrite db1 studentUid u.badges u1 newXp)

/-! ## Route: POST /endSession, src/index.js lines 509-525

Only an active session is ended; only then (and only when both
`instituteId` and `department` are truthy) is the department class counter
merge-incremented. -/

def endSession {α : Type} (sessionId : Option String) (db : DB α) :
    HttpResult × DB α :=
  match sessionId with
  | none => (.err 500 "TypeError", db)
  | some sid =>
    if sid.isEmpty then (.err 500 "TypeError", db)
    else
      match db.sessions sid with
      | none => (.err 404 "Not found", db)
      | some s =>
        if s.isActive then
          let db1 := { db with
            sessions := upd db.sessions sid { s with isActive := false } }
          let db2 :=
            if jsTruthyStr s.instituteId && jsTruthyStr s.department then
              let inst := s.instituteId.getD ""
              let dept := s.department.getD ""
              let key := inst ++ "_" ++ dept
              let stats : StatsDoc :=
                { totalClasses := some
                    (((db1.deptStats key).bind StatsDoc.totalClasses).getD 0 + 1)
                  instituteId := some inst, department := some dept }
              { db1 with deptStats := upd db1.deptStats key stats }
            else db1
          (.ok "Ended.", db2)
        else (.ok "Ended.", db)

/-! ## Route: POST /completeTask, src/unnamed/part_001 lines 211-226

Cooldown-gated +50 XP award with badge evaluation; the cooldown compares
`(now - lastTaskTime) / 60000 < 15`, i.e. `now - lastTaskTime < 900000`. -/

def completeTask {α : Type} (now : Int) (uid : Option String) (db : DB α) :
    HttpResult × DB α :=
  if !jsTruthyStr uid then (.err 400 "UID missing", db)
  else
    let u0 := uid.getD ""
    match db.users u0 with
    | none => (.err 500 "TypeError", db)
    | some u =>
      let cooldown :=
        match u.lastTaskTime with
        | some l => decide (now - l < 900000)
        | none => false
      if cooldown then (.err 429 "Wait a few minutes!", db)
      else
        let newXp := u.xp.getD 0 + 50
        let u1 := { u with xp := some newXp, lastTaskTime := some now }
        (.ok "Task Verified! +50 XP", awardWrite db u0 u.badges u1 newXp)

/-! ## Route: POST /verifyQuickTask, src/index.js lines 673-697

The XP delta is taken from the caller-supplied `xpReward` body field
(`const points = xpReward || 30`), so the caller chooses the increment; a
negative value decreases the stored XP.  The AI verdict is an external
input, modelled as a boolean. -/

def verifyQuickTask {α : Type} (now : Int) (uid taskTitle proofText : Option String)
    (xpReward : Option Int) (aiAccepts : Bool) (db : DB α) :
    HttpResult × DB α :=
  if !jsTruthyStr uid || !jsTruthyStr taskTitle || !jsTruthyStr proofText then
    (.err 400 "Missing Data", db)
  else if (proofText.getD "").length < 15 then (.err 400 "Too short.", db)
  else
    let u0 := uid.getD ""
    match db.users u0 with
    | none => (.err 500 "TypeError", db)
    | some u =>
      let cooldown :=
        match u.lastQuickTaskTime with
        | some l => decide (now - l < 900000)
        | none => false
      if cooldown then (.err 429 "Cooldown active.", db)
      else if !aiAccepts then (.err 400 "AI Rejected.", db)
      else
        let points := quickTaskPoints xpReward
        let newXp := u.xp.getD 0 + points
        let u1 := { u with xp := some newXp, lastQuickTaskTime := some now }
        (.ok "Verified!", awardWrite db u0 u.badges u1 newXp)

/-! ## Route: POST /quizAttempt, src/index.js lines 267-279

The attempt document is stored first; a score above 60 then increments XP
by 20 (an `update` on a missing user document rejects after the attempt
write has already committed). -/

def quizAttempt {α : Type} (userId quizId : Option String) (score : Option Int)
    (db : DB α) : HttpResult × DB α :=
  if !jsTruthyStr userId || !jsTruthyStr quizId then (.err 400 "Invalid", db)
  else
    let uid := userId.getD ""
    let db1 := { db with
      attempts := db.attempts ++ [⟨uid, quizId.getD "", score⟩] }
    let highScore :=
      match score with
      | some v => decide (60 < v)
      | none => false
    if highScore then
      match db1.users uid with
      | none => (.err 500 "TypeError", db1)
      | some u =>
        let u1 := { u with xp := some (u.xp.getD 0 + 20) }
        (.ok "ok", { db1 with users := upd db1.users uid u1 })
    else (.ok "ok", db1)

/-! ## Route: POST /updateResume, src/index.js lines 582-595

A missing authorization header makes `authHeader.split` throw (500) before
the `!token` check; on success, +50 XP with no badge evaluation. -/

def updateResume {α : Type} (auth : Auth) (hasResume : Bool) (db : DB α) :
    HttpResult × DB α :=
  match auth with
  | .missing => (.err 500 "TypeError", db)
  | .invalid => (.err 500 "TypeError", db)
  | .valid uid =>
    if !hasResume then (.err 400 "No data", db)
    else
      match db.users uid with
      | none => (.err 500 "TypeError", db)
      | some u =>
        let u1 := { u with xp := some (u.xp.getD 0 + 50), hasResumeData := true }
        (.ok "Updated! +50 XP", { db with users := upd db.users uid u1 })

/-! ## Route: POST /submitInteractiveTask, src/index.js lines 708-727

A passed task increments XP by 50; whether the task passed comes from an
external AI check or an answer-index comparison, modelled as a boolean. -/

def submitInteractiveTask {α : Type} (uid : Option String) (passed : Bool)
    (db : DB α) : HttpResult × DB α :=
  if !jsTruthyStr uid then (.err 500 "TypeError", db)
  else if passed then
    match db.users (uid.getD "") with
    | none => (.err 500 "TypeError", db)
    | some u =>
      let u1 := { u with xp := some (u.xp.getD 0 + 50) }
      (.ok "passed",
        { db with users := upd db.users (uid.getD "") u1 })
  else (.ok "not passed", db)

/-! ## Haversine distance (src/index.js lines 127-137)

```js
function getDistance(lat1, lon1, lat2, lon2) {
  const toRad = (x) => (x * Math.PI) / 180;
  const R = 6371000;
  const dLat = toRad(lat2 - lat1);
  const dLon = toRad(lon2 - lon1);
  const a = Math.sin(dLat/2)*Math.sin(dLat/2) +
            Math.cos(toRad(lat1))*Math.cos(toRad(lat2))*
            Math.sin(dLon/2)*Math.sin(dLon/2);
  const c = 2 * Math.atan2(Math.sqrt(a), Math.sqrt(1 - a));
  return R * c;
}
```
embedded over the real numbers.  `Math.atan2(y, x)` is only applied to
non-negative arguments here, where it is `arctan (y/x)` for `x > 0`,
`π/2` for `x = 0 < y`, and `0` at the origin. -/

noncomputable def toRad (x : ℝ) : ℝ := x * Real.pi / 180

/-- `Math.atan2` restricted to the first quadrant (both arguments are
square roots in `getDistance`). -/
noncomputable def atan2 (y x : ℝ) : ℝ :=
  if 0 < x then Real.arctan (y / x)
  else if 0 < y then Real.pi / 2
  else 0

noncomputable def getDistance (lat1 lon1 lat2 lon2 : ℝ) : ℝ :=
  let R : ℝ := 6371000
  let dLat := toRad (lat2 - lat1)
  let dLon := toRad (lon2 - lon1)
  let a := Real.sin (dLat / 2) * Real.sin (dLat / 2) +
      Real.cos (toRad lat1) * Real.cos (toRad lat2) *
      Real.sin (dLon / 2) * Real.sin (dLon / 2)
  let c := 2 * atan2 (Real.sqrt a) (Real.sqrt (1 - a))
  R * c

/-! ## The operations of the service, for the progression invariants

One constructor per embedded route, carrying the request data of that route.
`markP001` and `markIndex` are the two `markAttendance` snapshots. -/

inductive Op (α : Type) where
  | markIndex (dist : α → α → α → α → α) (demoMode : Bool) (radius : α)
      (now : Int) (auth : Auth) (sessionId : Option String)
      (loc : Option (GeoPoint α))
  | markP001 (dist : α → α → α → α → α) (demoMode : Bool) (radius : α)
      (now : Int) (auth : Auth) (sessionId : Option String)
      (loc : Option (GeoPoint α))
  | endSess (sessionId : Option String)
  | completeTsk (now : Int) (uid : Option String)
  | verifyQuick (now : Int) (uid taskTitle proofText : Option String)
      (xpReward : Option Int) (aiAccepts : Bool)
  | quizAtt (userId quizId : Option String) (score : Option Int)
  | updResume (auth : Auth) (hasResume : Bool)
  | submitInteractive (uid : Option String) (passed : Bool)

def applyOp {α : Type} [LinearOrderedField α] [FloorRing α] :
    Op α → DB α → HttpResult × DB α
  | .markIndex dist demo radius now auth sid loc, db =>
    markAttendanceIndex dist demo radius now auth sid loc db
  | .markP001 dist demo radius now auth sid loc, db =>
    markAttendanceP001 dist demo radius now auth sid loc db
  | .endSess sid, db => endSession sid db
  | .completeTsk now uid, db => completeTask now uid db
  | .verifyQuick now uid tt pt xr ai, db => verifyQuickTask now uid tt pt xr ai db
  | .quizAtt uid qid score, db => quizAttempt uid qid score db
  | .updResume auth hasResume, db => updateResume auth hasResume db
  | .submitInteractive uid passed, db => submitInteractiveTask uid passed db

/-- An operation is benign when any caller-supplied XP delta it carries is
non-negative; every other operation has a fixed non-negative delta. -/
def Op.benign {α : Type} : Op α → Prop
  | .verifyQuick _ _ _ _ xr _ => 0 ≤ quickTaskPoints xr
  | _ => True

/-! ## Student-progression invariants (spec §3) -/

/-- Every held badge names a badge rule whose threshold is at most the
current XP of the student. -/
def BadgesCovered (u : UserDoc) : Prop :=
  ∀ b ∈ u.badges.getD [], ∃ r ∈ BADGE_RULES, r.id = b ∧ r.threshold ≤ u.xp.getD 0

/-- The progression invariant of a stored student profile. -/
def ProgInv (u : UserDoc) : Prop :=
  0 ≤ u.xp.getD 0 ∧ BadgesCovered u

instance (u : UserDoc) : Decidable (BadgesCovered u) := by
  unfold BadgesCovered; infer_instance

instance (u : UserDoc) : Decidable (ProgInv u) := by
  unfold ProgInv; infer_instance

/-! ## Helper lemmas about splitting -/

lemma splitOnChar_of_not_mem {sep : Char} {l : List Char} (h : sep ∉ l) :
    splitOnChar sep l = [l] := by
  induction l with
  | nil => rfl
  | cons c cs ih =>
    have hc : ¬c = sep := fun e => h (e ▸ List.mem_cons_self c cs)
    have hcs : sep ∉ cs := fun m => h (List.mem_cons_of_mem _ m)
    simp [splitOnChar, hc, ih hcs]

lemma splitOnChar_append {sep : Char} {pre rest : List Char} (h : sep ∉ pre) :
    splitOnChar sep (pre ++ sep :: rest) = pre :: splitOnChar sep rest := by
  induction pre with
  | nil => simp [splitOnChar]
  | cons c cs ih =>
    have hc : ¬c = sep := fun e => h (e ▸ List.mem_cons_self c cs)
    have hcs : sep ∉ cs := fun m => h (List.mem_cons_of_mem _ m)
    simp only [List.cons_append, splitOnChar, if_neg hc, List.append_eq, ih hcs]

lemma jsParseInt_nil : jsParseInt (String.mk []) = none := by
  simp [jsParseInt, parseUnsigned, leadingDecimal]

/-- On a two-segment token, `tokenCheck` reduces to the freshness test
applied to the second segment. -/
lemma tokenCheck_two_segments {sid ts : List Char} (now : Int)
    (h1 : sid ≠ []) (h2 : '|' ∉ sid) (h3 : '|' ∉ ts) (h4 : ts ≠ []) :
    tokenCheck now (String.mk (sid ++ '|' :: ts)) =
      (if qrExpired now (String.mk ts) then .expired
       else .okTok (String.mk sid)) := by
  have hsplit : splitOnChar '|' (sid ++ '|' :: ts) = [sid, ts] := by
    rw [splitOnChar_append h2, splitOnChar_of_not_mem h3]
  simp [tokenCheck, hsplit, h1, h4]

/-- Claim C2: for a token `"<sessionId>|<issuedAtMs>"` with non-empty
session id and a numeric timestamp, the freshness step rejects as expired
exactly when `now - issuedAtMs` exceeds 15 000 ms, and otherwise passes the
session id on; a token with no timestamp segment is accepted with no
freshness check; a token whose session-id segment is empty is rejected as
malformed regardless of the rest; and an expired token makes the
`/markAttendance` route answer HTTP 400 with no state change. -/
theorem claim2_token_freshness :
    (∀ (sid ts : List Char) (now t : Int),
      sid ≠ [] → '|' ∉ sid → '|' ∉ ts →
      jsParseInt (String.mk ts) = some t →
      (tokenCheck now (String.mk (sid ++ '|' :: ts)) = .expired ↔
        15000 < now - t)
      ∧ (now - t ≤ 15000 →
        tokenCheck now (String.mk (sid ++ '|' :: ts)) = .okTok (String.mk sid)))
    ∧ (∀ (sid : List Char) (now : Int), sid ≠ [] → '|' ∉ sid →
        tokenCheck now (String.mk sid) = .okTok (String.mk sid))
    ∧ (∀ (rest : List Char) (now : Int),
        tokenCheck now (String.mk ('|' :: rest)) = .invalid)
    ∧ (∀ {α : Type} [LinearOrderedField α] [FloorRing α]
        (dist : α → α → α → α → α) (demo : Bool) (radius : α) (now : Int)
        (uid sid : String) (loc : Option (GeoPoint α)) (db : DB α),
        tokenCheck now sid = .expired →
        markAttendanceIndex dist demo radius now (.valid uid) (some sid) loc db
          = (.err 400 "QR Expired!", db)) := by
  refine ⟨?_, ?_, ?_, ?_⟩
  · intro sid ts now t h1 h2 h3 hp
    have h4 : ts ≠ [] := by
      intro e; rw [e, jsParseInt_nil] at hp; exact Option.noConfusion hp
    have hq : qrExpired now (String.mk ts) = decide (15000 < now - t) := by
      simp [qrExpired, hp]
    rw [tokenCheck_two_segments now h1 h2 h3 h4, hq]
    constructor
    · constructor
      · intro h
        by_contra hc
        simp [decide_eq_false hc] at h
      · intro h; simp [decide_eq_true h]
    · intro h
      have : ¬(15000 < now - t) := by omega
      simp [decide_eq_false this]
  · intro sid now h1 h2
    have hsplit : splitOnChar '|' sid = [sid] := splitOnChar_of_not_mem h2
    simp [tokenCheck, hsplit, h1]
  · intro rest now
    have hsplit : splitOnChar '|' ('|' :: rest) = [] :: splitOnChar '|' rest := by
      simp [splitOnChar]
    simp [tokenCheck, hsplit]
  · intro α _ _ dist demo radius now uid sid loc db h
    simp [markAttendanceIndex, h]

/-- Witness for C2, at the test vectors of the spec: a token issued
20 000 ms ago (window 15 000 ms) is expired, one issued 5 000 ms ago is
accepted, a timestampless token is accepted, and a token with empty
session id is malformed. -/
theorem claim2_token_freshness_witness :
    tokenCheck 20000 (String.mk (['S', '1'] ++ '|' :: ['0'])) = .expired
    ∧ tokenCheck 5000 (String.mk (['S', '1'] ++ '|' :: ['0'])) =
        .okTok (String.mk ['S', '1'])
    ∧ tokenCheck 99999 (String.mk ['S', '1']) = .okTok (String.mk ['S', '1'])
    ∧ tokenCheck 0 (String.mk ('|' :: ['9'])) = .invalid := by
  refine ⟨?_, ?_, ?_, ?_⟩
  · exact (claim2_token_freshness.1 ['S', '1'] ['0'] 20000 0 (by decide)
      (by decide) (by decide) (by decide)).1.mpr (by decide)
  · exact (claim2_token_freshness.1 ['S', '1'] ['0'] 5000 0 (by decide)
      (by decide) (by decide) (by decide)).2 (by decide)
  · exact claim2_token_freshness.2.1 ['S', '1'] 99999 (by decide) (by decide)
  · exact claim2_token_freshness.2.2.1 ['9'] 0

/-- Claim C9: a token whose timestamp segment is present but does not
parse to a number (`parseInt` yields `NaN`) is never rejected by the
freshness check: `(now - NaN)/1000 > 15` is false, so the token is
accepted for every `now`. -/
theorem claim9_nan_timestamp_accepted :
    ∀ (sid ts : List Char) (now : Int),
      sid ≠ [] → '|' ∉ sid → '|' ∉ ts →
      jsParseInt (String.mk ts) = none →
      tokenCheck now (String.mk (sid ++ '|' :: ts)) = .okTok (String.mk sid) := by
  intro sid ts now h1 h2 h3 hp
  by_cases h4 : ts = []
  · subst h4
    have hsplit : splitOnChar '|' (sid ++ '|' :: []) = [sid, []] := by
      rw [splitOnChar_append h2]; rfl
    simp [tokenCheck, hsplit, h1]
  · rw [tokenCheck_two_segments now h1 h2 h3 h4]
    have hq : qrExpired now (String.mk ts) = false := by simp [qrExpired, hp]
    simp [hq]

/-- Witness for C9: the token `"S1|abc"` is accepted as fresh even when
`now` is far beyond any freshness window. -/
theorem claim9_nan_timestamp_accepted_witness :
    tokenCheck 99999999999 (String.mk (['S', '1'] ++ '|' :: ['a', 'b', 'c'])) =
      .okTok (String.mk ['S', '1']) :=
  claim9_nan_timestamp_accepted ['S', '1'] ['a', 'b', 'c'] 99999999999
    (by decide) (by decide) (by decide) (by decide)

/-! ## Badge lemmas -/

lemma mem_foldl_union (new : List String) :
    ∀ (acc : List String) (b : String),
      (b ∈ new.foldl
        (fun acc b2 => if acc.contains b2 then acc else acc ++ [b2]) acc) ↔
      b ∈ acc ∨ b ∈ new := by
  induction new with
  | nil => simp
  | cons x xs ih =>
    intro acc b
    simp only [List.foldl_cons]
    by_cases hx : acc.contains x
    · rw [if_pos hx, ih]
      have hxa : x ∈ acc := by
        simpa [List.contains, List.elem_iff] using hx
      constructor
      · rintro (h | h)
        · exact Or.inl h
        · exact Or.inr (List.mem_cons_of_mem _ h)
      · rintro (h | h)
        · exact Or.inl h
        · rcases List.mem_cons.mp h with h | h
          · exact Or.inl (h ▸ hxa)
          · exact Or.inr h
    · rw [if_neg hx, ih]
      simp only [List.mem_append, List.mem_singleton, List.mem_cons]
      tauto

lemma mem_arrayUnion {old new : List String} {b : String} :
    b ∈ arrayUnion old new ↔ b ∈ old ∨ b ∈ new :=
  mem_foldl_union new old b

lemma mem_checkAndAwardBadges {xp : Int} {cur : Option (List String)} {b : String} :
    b ∈ checkAndAwardBadges xp cur ↔
      ∃ r ∈ BADGE_RULES, r.id = b ∧ r.threshold ≤ xp ∧ b ∉ cur.getD [] := by
  simp only [checkAndAwardBadges, List.mem_map, List.mem_filter,
    Bool.and_eq_true, decide_eq_true_eq, Bool.not_eq_true', ge_iff_le]
  constructor
  · rintro ⟨r, ⟨hr, hth, hc⟩, hid⟩
    refine ⟨r, hr, hid, hth, ?_⟩
    intro hmem
    rw [hid] at hc
    have : (cur.getD []).contains b = true := by
      simpa [List.contains, List.elem_iff] using hmem
    rw [this] at hc
    exact Bool.noConfusion hc
  · rintro ⟨r, hr, hid, hth, hnm⟩
    refine ⟨r, ⟨hr, hth, ?_⟩, hid⟩
    rw [hid]
    by_contra hc
    simp only [Bool.not_eq_false] at hc
    exact hnm (by simpa [List.contains, List.elem_iff] using hc)

/-- Claim C4: badge evaluation grants exactly the rule badges whose
threshold is at most the new XP and that are not already held; the stored
badge set is the union of the old set with the newly earned ones; the
returned value is exactly the delta; and a badge already held is never
re-granted nor removed by a later evaluation at any (in particular the
same or a higher) XP. -/
theorem claim4_badges :
    ∀ (xp : Int) (cur : List String) (b : String),
      (b ∈ checkAndAwardBadges xp (some cur) ↔
        ∃ r ∈ BADGE_RULES, r.id = b ∧ r.threshold ≤ xp ∧ b ∉ cur)
      ∧ (b ∈ arrayUnion cur (checkAndAwardBadges xp (some cur)) ↔
          b ∈ cur ∨ b ∈ checkAndAwardBadges xp (some cur))
      ∧ (b ∈ cur → b ∉ checkAndAwardBadges xp (some cur))
      ∧ (b ∈ cur →
          ∀ xp2 : Int, b ∈ arrayUnion cur (checkAndAwardBadges xp2 (some cur))) := by
  intro xp cur b
  refine ⟨mem_checkAndAwardBadges, mem_arrayUnion, ?_, ?_⟩
  · intro hb hmem
    rcases mem_checkAndAwardBadges.mp hmem with ⟨r, _, _, _, hnm⟩
    exact hnm hb
  · intro hb xp2
    exact mem_arrayUnion.mpr (Or.inl hb)

/-- Witness for C4: at XP 150 with `novice` already held, `novice` is
neither re-granted nor removed, `enthusiast` is not granted (threshold
500 > 150), and at XP 100 from no badges `novice` is granted. -/
theorem claim4_badges_witness :
    ("novice" ∉ checkAndAwardBadges 150 (some ["novice"]))
    ∧ ("novice" ∈ arrayUnion ["novice"] (checkAndAwardBadges 150 (some ["novice"])))
    ∧ ("novice" ∈ checkAndAwardBadges 100 (some [])) := by
  refine ⟨?_, ?_, ?_⟩
  · exact (claim4_badges 150 ["novice"] "novice").2.2.1 (by decide)
  · exact (claim4_badges 150 ["novice"] "novice").2.2.2 (by decide) 150
  · exact (claim4_badges 100 [] "novice").1.mpr
      ⟨⟨"novice", 100⟩, by decide, rfl, by decide, by decide⟩

/-! ## Concrete fixtures used by witnesses and counterexamples -/

/-- An active session with no registered location. -/
def wSession : SessionDoc ℚ :=
  { isActive := true, location := none, subject := some "Math"
    instituteId := some "I1", department := some "CS" }

/-- An active session registered at the origin. -/
def wSessionLoc : SessionDoc ℚ :=
  { isActive := true, location := some ⟨0, 0⟩, subject := some "Math"
    instituteId := some "I1", department := some "CS" }

/-- A fresh student profile with every copied field present. -/
def wUser : UserDoc :=
  { email := some "a@b.c", firstName := some "Ada", lastName := some "L"
    rollNo := some "7", instituteId := some "I1", xp := some 0
    badges := some [], attendanceCount := none, lastTaskTime := none
    lastQuickTaskTime := none, hasResumeData := false }

/-- Database with session `S1` (no location) and student `u1`. -/
def wDB : DB ℚ :=
  { sessions := fun k => if k = "S1" then some wSession else none
    users := fun k => if k = "u1" then some wUser else none
    attendance := fun _ => none
    deptStats := fun _ => none
    attempts := [] }

/-- Database with session `S1` registered at the origin. -/
def wDBLoc : DB ℚ :=
  { wDB with sessions := fun k => if k = "S1" then some wSessionLoc else none }

/-! ## Geofence analysis over ℝ -/

lemma atan2_nonneg {y x : ℝ} (hy : 0 ≤ y) : 0 ≤ atan2 y x := by
  unfold atan2
  split
  · rename_i hx
    rw [← Real.arctan_zero]
    exact Real.arctan_strictMono.monotone (div_nonneg hy hx.le)
  · split
    · positivity
    · exact le_refl 0

lemma getDistance_nonneg (lat1 lon1 lat2 lon2 : ℝ) :
    0 ≤ getDistance lat1 lon1 lat2 lon2 := by
  unfold getDistance
  dsimp only
  exact mul_nonneg (by norm_num)
    (mul_nonneg (by norm_num) (atan2_nonneg (Real.sqrt_nonneg _)))

/-- Claim C3: the geofence decision accepts exactly when the toggle is off
or both points are present with haversine distance (Earth radius
6 371 000 m) at most the acceptable radius; with validation on, an absent
point yields the location-missing rejection (HTTP 400 at the route) and an
out-of-radius pair yields the too-far rejection (HTTP 403 at the route)
whose message reports the distance rounded to whole metres. -/
theorem claim3_geofence :
    (∀ (demo : Bool) (radius : ℝ) (sl dl : Option (GeoPoint ℝ)),
      (locationCheck demo getDistance radius sl dl = .skip ∨
        locationCheck demo getDistance radius sl dl = .okLoc) ↔
      (demo = true ∨ ∃ p q, sl = some p ∧ dl = some q ∧
        getDistance p.latitude p.longitude q.latitude q.longitude ≤ radius))
    ∧ (∀ (radius : ℝ) (sl dl : Option (GeoPoint ℝ)), sl = none ∨ dl = none →
        locationCheck false getDistance radius sl dl = .missingLoc)
    ∧ (∀ (radius : ℝ) (p q : GeoPoint ℝ),
        radius < getDistance p.latitude p.longitude q.latitude q.longitude →
        locationCheck false getDistance radius (some p) (some q) =
          .tooFar (round (getDistance p.latitude p.longitude q.latitude q.longitude)))
    ∧ (∀ {α : Type} [LinearOrderedField α] [FloorRing α]
        (dist : α → α → α → α → α) (demo : Bool) (radius : α) (now : Int)
        (uid sid rsid : String) (loc : Option (GeoPoint α)) (db : DB α)
        (s : SessionDoc α),
        tokenCheck now sid = .okTok rsid → db.sessions rsid = some s →
        s.isActive = true →
        (locationCheck demo dist radius s.location loc = .missingLoc →
          markAttendanceIndex dist demo radius now (.valid uid) (some sid) loc db
            = (.err 400 "Location missing", db))
        ∧ (∀ z : Int, locationCheck demo dist radius s.location loc = .tooFar z →
          markAttendanceIndex dist demo radius now (.valid uid) (some sid) loc db
            = (.err 403 ("Too far! (" ++ toString z ++ "m)"), db))) := by
  refine ⟨?_, ?_, ?_, ?_⟩
  · intro demo radius sl dl
    cases demo with
    | true => simp [locationCheck]
    | false =>
      cases sl with
      | none => simp [locationCheck]
      | some p =>
        cases dl with
        | none => simp [locationCheck]
        | some q =>
          by_cases hlt :
            radius < getDistance p.latitude p.longitude q.latitude q.longitude
          · apply iff_of_false
            · rintro (h | h) <;> simp [locationCheck, hlt] at h
            · rintro (h | ⟨p2, q2, hp, hq, hle⟩)
              · exact Bool.noConfusion h
              · cases Option.some.inj hp
                cases Option.some.inj hq
                exact absurd hle (not_le.mpr hlt)
          · apply iff_of_true
            · right; simp [locationCheck, hlt]
            · exact Or.inr ⟨p, q, rfl, rfl, not_lt.mp hlt⟩
  · intro radius sl dl h
    rcases h with h | h
    · subst h; simp [locationCheck]
    · subst h; cases sl <;> simp [locationCheck]
  · intro radius p q hlt
    simp [locationCheck, hlt]
  · intro α _ _ dist demo radius now uid sid rsid loc db s htok hsess hact
    constructor
    · intro hloc
      simp [markAttendanceIndex, htok, hsess, hact, hloc]
    · intro z hloc
      simp [markAttendanceIndex, htok, hsess, hact, hloc]

/-- Witness for C3: validation on with absent points rejects as missing;
a negative radius forces the too-far branch with the rounded distance in
the result; the toggle off accepts; and at the route a 300 m distance
against a 200 m radius answers HTTP 403 reporting 300 m. -/
theorem claim3_geofence_witness :
    (locationCheck false getDistance 200 (none : Option (GeoPoint ℝ)) none =
      .missingLoc)
    ∧ (locationCheck false getDistance (-1) (some ⟨0, 0⟩) (some ⟨0, 0⟩) =
        .tooFar (round (getDistance 0 0 0 0)))
    ∧ (locationCheck true getDistance 200 (none : Option (GeoPoint ℝ)) none =
        .skip ∨
      locationCheck true getDistance 200 (none : Option (GeoPoint ℝ)) none =
        .okLoc)
    ∧ (markAttendanceIndex (fun _ _ _ _ => (300 : ℚ)) false 200 0 (.valid "u1")
        (some "S1") (some ⟨0, 0⟩) wDBLoc
        = (.err 403 ("Too far! (" ++ toString (300 : Int) ++ "m)"), wDBLoc)) := by
  refine ⟨?_, ?_, ?_, ?_⟩
  · exact claim3_geofence.2.1 200 none none (Or.inl rfl)
  · exact claim3_geofence.2.2.1 (-1) ⟨0, 0⟩ ⟨0, 0⟩
      (lt_of_lt_of_le (by norm_num) (getDistance_nonneg 0 0 0 0))
  · exact (claim3_geofence.1 true 200 none none).mpr (Or.inl rfl)
  · refine (claim3_geofence.2.2.2 (fun _ _ _ _ => (300 : ℚ)) false 200 0
      "u1" "S1" "S1" (some ⟨0, 0⟩) wDBLoc wSessionLoc (by decide) rfl rfl).2
      300 ?_
    have h300 : round ((300 : ℚ)) = (300 : Int) := by norm_num
    have h23 : ((200 : ℚ) < 300) := by norm_num
    simp [locationCheck, wSessionLoc, h300, h23]

/-- Claim C10: a submission whose body omits the token string entirely
(`sessionId` undefined) makes `sessionId.split` throw, so the route
answers HTTP 500 — not the 400 malformed-token error — and performs no
attendance or progression write. -/
theorem claim10_missing_sessionId_500 :
    ∀ {α : Type} [LinearOrderedField α] [FloorRing α]
      (dist : α → α → α → α → α) (demo : Bool) (radius : α) (now : Int)
      (uid : String) (loc : Option (GeoPoint α)) (db : DB α),
      markAttendanceIndex dist demo radius now (.valid uid) none loc db
        = (.err 500 "TypeError", db) := by
  intro α _ _ dist demo radius now uid loc db
  rfl

/-! ## Claim C1: idempotence of duplicate submissions -/

/-- Claim C1 (the code violates it in src/index.js): the part_001
`markAttendance` is idempotent — the second identical submission answers
"Already marked!" and changes nothing, and XP is awarded exactly once —
but the src/index.js `markAttendance` has no duplicate check: a second
identical submission overwrites the attendance record (fresh timestamp)
and increments `attendanceCount` a second time, and no XP is ever awarded
on that route. -/
theorem claim1_double_submission_mutates :
    (markAttendanceIndex (fun _ _ _ _ => (0 : ℚ)) true 200 1000 (.valid "u1")
      (some "S1") none wDB).1 = .ok "Attendance Marked!"
    ∧ (markAttendanceIndex (fun _ _ _ _ => (0 : ℚ)) true 200 2000 (.valid "u1")
        (some "S1") none
        (markAttendanceIndex (fun _ _ _ _ => (0 : ℚ)) true 200 1000 (.valid "u1")
          (some "S1") none wDB).2).1 = .ok "Attendance Marked!"
    ∧ (((markAttendanceIndex (fun _ _ _ _ => (0 : ℚ)) true 200 1000 (.valid "u1")
        (some "S1") none wDB).2.users "u1").map UserDoc.attendanceCount)
        = some (some 1)
    ∧ (((markAttendanceIndex (fun _ _ _ _ => (0 : ℚ)) true 200 2000 (.valid "u1")
        (some "S1") none
        (markAttendanceIndex (fun _ _ _ _ => (0 : ℚ)) true 200 1000 (.valid "u1")
          (some "S1") none wDB).2).2.users "u1").map UserDoc.attendanceCount)
        = some (some 2)
    ∧ (((markAttendanceIndex (fun _ _ _ _ => (0 : ℚ)) true 200 1000 (.valid "u1")
        (some "S1") none wDB).2.attendance "S1_u1").map AttendanceDoc.timestamp)
        = some 1000
    ∧ (((markAttendanceIndex (fun _ _ _ _ => (0 : ℚ)) true 200 2000 (.valid "u1")
        (some "S1") none
        (markAttendanceIndex (fun _ _ _ _ => (0 : ℚ)) true 200 1000 (.valid "u1")
          (some "S1") none wDB).2).2.attendance "S1_u1").map AttendanceDoc.timestamp)
        = some 2000
    ∧ (((markAttendanceIndex (fun _ _ _ _ => (0 : ℚ)) true 200 1000 (.valid "u1")
        (some "S1") none wDB).2.users "u1").map UserDoc.xp) = some (some 0)
    ∧ (markAttendanceP001 (fun _ _ _ _ => (0 : ℚ)) true 200 1000 (.valid "u1")
        (some "S1") none wDB).1 = .ok "Attendance Marked! +10 XP"
    ∧ (((markAttendanceP001 (fun _ _ _ _ => (0 : ℚ)) true 200 1000 (.valid "u1")
        (some "S1") none wDB).2.users "u1").map UserDoc.xp) = some (some 10)
    ∧ (markAttendanceP001 (fun _ _ _ _ => (0 : ℚ)) true 200 2000 (.valid "u1")
        (some "S1") none
        (markAttendanceP001 (fun _ _ _ _ => (0 : ℚ)) true 200 1000 (.valid "u1")
          (some "S1") none wDB).2).1 = .ok "Already marked!"
    ∧ (markAttendanceP001 (fun _ _ _ _ => (0 : ℚ)) true 200 2000 (.valid "u1")
        (some "S1") none
        (markAttendanceP001 (fun _ _ _ _ => (0 : ℚ)) true 200 1000 (.valid "u1")
          (some "S1") none wDB).2).2
      = (markAttendanceP001 (fun _ _ _ _ => (0 : ℚ)) true 200 1000 (.valid "u1")
          (some "S1") none wDB).2 := by
  refine ⟨?_, ?_, ?_, ?_, ?_, ?_, ?_, ?_, ?_, ?_, ?_⟩ <;> rfl

/-! ## Claim C6: endSession idempotence -/

lemma sessions_awardWrite {α : Type} (db : DB α) (u0 : String)
    (sb : Option (List String)) (u1 : UserDoc) (n : Int) :
    (awardWrite db u0 sb u1 n).sessions = db.sessions := by
  unfold awardWrite
  dsimp only
  split <;> rfl

lemma endSession_state_none {α : Type} {db : DB α} {sid : String}
    (hs : db.sessions sid = none) : (endSession (some sid) db).2 = db := by
  by_cases he : sid.isEmpty <;> simp [endSession, he, hs]

lemma endSession_state_inactive {α : Type} {db : DB α} {sid : String}
    {s : SessionDoc α} (hs : db.sessions sid = some s) (ha : s.isActive = false) :
    (endSession (some sid) db).2 = db := by
  by_cases he : sid.isEmpty <;> simp [endSession, he, hs, ha]

lemma endSession_state_empty {α : Type} {db : DB α} {sid : String}
    (he : sid.isEmpty = true) : (endSession (some sid) db).2 = db := by
  simp [endSession, he]

lemma endSession_active_sessions {α : Type} {db : DB α} {sid : String}
    {s : SessionDoc α} (he : sid.isEmpty = false) (hs : db.sessions sid = some s)
    (ha : s.isActive = true) :
    ((endSession (some sid) db).2).sessions =
      upd db.sessions sid { s with isActive := false } := by
  by_cases hid : jsTruthyStr s.instituteId && jsTruthyStr s.department <;>
    simp [endSession, he, hs, ha, hid]

/-- Claim C6: ending an already-inactive session changes nothing (session
document and department counter included); running `endSession` twice on
any input leaves the state of the first run unchanged, so the counter is
incremented at most once per session; and no operation of the service ever
turns an inactive session active again. -/
theorem claim6_endSession_idempotent :
    (∀ {α : Type} (db : DB α) (sid : String) (s : SessionDoc α),
      db.sessions sid = some s → s.isActive = false →
      (endSession (some sid) db).2 = db)
    ∧ (∀ {α : Type} (db : DB α) (sid : Option String),
        (endSession sid (endSession sid db).2).2 = (endSession sid db).2)
    ∧ (∀ (op : Op ℚ) (db : DB ℚ) (k : String) (s : SessionDoc ℚ),
        db.sessions k = some s → s.isActive = false →
        ∃ s2, ((applyOp op db).2).sessions k = some s2 ∧ s2.isActive = false) := by
  refine ⟨?_, ?_, ?_⟩
  · intro α db sid s hs ha
    exact endSession_state_inactive hs ha
  · intro α db sid
    cases sid with
    | none => rfl
    | some sid =>
      by_cases he : sid.isEmpty
      · rw [endSession_state_empty he, endSession_state_empty he]
      · cases hs : db.sessions sid with
        | none =>
          rw [endSession_state_none hs, endSession_state_none hs]
        | some s =>
          by_cases ha : s.isActive
          · have hsess := endSession_active_sessions
              (Bool.not_eq_true _ ▸ (by simpa using he)) hs ha
            have hlook : ((endSession (some sid) db).2).sessions sid =
                some { s with isActive := false } := by
              rw [hsess]; simp [upd]
            exact endSession_state_inactive hlook rfl
          · rw [endSession_state_inactive hs (Bool.not_eq_true _ ▸ (by simpa using ha)),
              endSession_state_inactive hs (Bool.not_eq_true _ ▸ (by simpa using ha))]
  · intro op db k s hk ha
    cases op with
    | endSess sid =>
      show ∃ s2, ((endSession sid db).2).sessions k = some s2 ∧ s2.isActive = false
      cases sid with
      | none => exact ⟨s, hk, ha⟩
      | some sid =>
        by_cases he : sid.isEmpty
        · rw [endSession_state_empty he]; exact ⟨s, hk, ha⟩
        · cases hs : db.sessions sid with
          | none => rw [endSession_state_none hs]; exact ⟨s, hk, ha⟩
          | some s1 =>
            by_cases ha1 : s1.isActive
            · rw [endSession_active_sessions (by simpa using he) hs ha1]
              by_cases hks : k = sid
              · subst hks
                exact ⟨{ s1 with isActive := false }, by simp [upd], rfl⟩
              · exact ⟨s, by simpa [upd, hks] using hk, ha⟩
            · rw [endSession_state_inactive hs (by simpa using ha1)]
              exact ⟨s, hk, ha⟩
    | markIndex dist demo radius now auth sid loc =>
      refine ⟨s, ?_, ha⟩
      show ((markAttendanceIndex dist demo radius now auth sid loc db).2).sessions k
        = some s
      have : ((markAttendanceIndex dist demo radius now auth sid loc db).2).sessions
          = db.sessions := by
        unfold markAttendanceIndex
        dsimp only
        (repeat' split) <;> rfl
      rw [this]; exact hk
    | markP001 dist demo radius now auth sid loc =>
      refine ⟨s, ?_, ha⟩
      have : ((markAttendanceP001 dist demo radius now auth sid loc db).2).sessions
          = db.sessions := by
        unfold markAttendanceP001
        dsimp only
        (repeat' split) <;> first | rfl | apply sessions_awardWrite
      show ((markAttendanceP001 dist demo radius now auth sid loc db).2).sessions k
        = some s
      rw [this]; exact hk
    | completeTsk now uid =>
      refine ⟨s, ?_, ha⟩
      have : ((completeTask now uid db).2).sessions = db.sessions := by
        unfold completeTask
        dsimp only
        (repeat' split) <;> first | rfl | apply sessions_awardWrite
      show ((completeTask now uid db).2).sessions k = some s
      rw [this]; exact hk
    | verifyQuick now uid tt pt xr ai =>
      refine ⟨s, ?_, ha⟩
      have : ((verifyQuickTask now uid tt pt xr ai db).2).sessions = db.sessions := by
        unfold verifyQuickTask
        dsimp only
        (repeat' split) <;> first | rfl | apply sessions_awardWrite
      show ((verifyQuickTask now uid tt pt xr ai db).2).sessions k = some s
      rw [this]; exact hk
    | quizAtt uid qid score =>
      refine ⟨s, ?_, ha⟩
      have : ((quizAttempt uid qid score db).2).sessions = db.sessions := by
        unfold quizAttempt
        dsimp only
        (repeat' split) <;> rfl
      show ((quizAttempt uid qid score db).2).sessions k = some s
      rw [this]; exact hk
    | updResume auth hasResume =>
      refine ⟨s, ?_, ha⟩
      have : ((updateResume auth hasResume db).2).sessions = db.sessions := by
        unfold updateResume
        dsimp only
        (repeat' split) <;> rfl
      show ((updateResume auth hasResume db).2).sessions k = some s
      rw [this]; exact hk
    | submitInteractive uid passed =>
      refine ⟨s, ?_, ha⟩
      have : ((submitInteractiveTask uid passed db).2).sessions = db.sessions := by
        unfold submitInteractiveTask
        dsimp only
        (repeat' split) <;> rfl
      show ((submitInteractiveTask uid passed db).2).sessions k = some s
      rw [this]; exact hk

/-- Witness for C6, on a concrete ended session: re-ending changes
nothing, and an inactive session stays inactive across a submission. -/
theorem claim6_endSession_idempotent_witness :
    ((endSession (some "S9")
      { wDB with sessions := fun k =>
          if k = "S9" then some { wSession with isActive := false } else none }).2
      = { wDB with sessions := fun k =>
          if k = "S9" then some { wSession with isActive := false } else none })
    ∧ (∃ s2, ((applyOp (Op.endSess (some "S9"))
        { wDB with sessions := fun k =>
            if k = "S9" then some { wSession with isActive := false } else none }).2).sessions
          "S9" = some s2 ∧ s2.isActive = false) := by
  constructor
  · exact claim6_endSession_idempotent.1
      { wDB with sessions := fun k =>
          if k = "S9" then some { wSession with isActive := false } else none }
      "S9" { wSession with isActive := false } (by simp) rfl
  · exact claim6_endSession_idempotent.2.2 (Op.endSess (some "S9"))
      { wDB with sessions := fun k =>
          if k = "S9" then some { wSession with isActive := false } else none }
      "S9" { wSession with isActive := false } (by simp) rfl

/-! ## Claim C7: session gating -/

/-- Claim C7: a submission whose token names a nonexistent or inactive
session answers HTTP 404 and performs no write at all: the whole database
is returned unchanged. -/
theorem claim7_session_gating :
    ∀ {α : Type} [LinearOrderedField α] [FloorRing α]
      (dist : α → α → α → α → α) (demo : Bool) (radius : α) (now : Int)
      (uid sid rsid : String) (loc : Option (GeoPoint α)) (db : DB α),
      tokenCheck now sid = .okTok rsid →
      (db.sessions rsid = none ∨
        ∃ s, db.sessions rsid = some s ∧ s.isActive = false) →
      markAttendanceIndex dist demo radius now (.valid uid) (some sid) loc db
        = (.err 404 "Session not active", db) := by
  intro α _ _ dist demo radius now uid sid rsid loc db htok hgate
  rcases hgate with hs | ⟨s, hs, ha⟩
  · simp [markAttendanceIndex, htok, hs]
  · simp [markAttendanceIndex, htok, hs, ha]

/-- Witness for C7: submitting against the unknown session `S404` on the
concrete database answers 404 with the state unchanged. -/
theorem claim7_session_gating_witness :
    markAttendanceIndex (fun _ _ _ _ => (0 : ℚ)) true 200 0 (.valid "u1")
      (some "S404") none wDB = (.err 404 "Session not active", wDB) :=
  claim7_session_gating (fun _ _ _ _ => (0 : ℚ)) true 200 0 "u1" "S404" "S404"
    none wDB (by decide) (Or.inl rfl)

/-! ## Claim C8: the default of the validation toggle -/

/-- Counterexample to C8: with no externally supplied configuration,
`DEMO_MODE` evaluates to `true`, i.e. the validation toggle defaults to
OFF, and a submission with no location at all is accepted rather than
rejected. -/
theorem claim8_fail_open_counterexample :
    DEMO_MODE none = true
    ∧ (markAttendanceIndex (fun _ _ _ _ => (10 ^ 9 : ℚ)) (DEMO_MODE none) 200 0
        (.valid "u1") (some "S1") none wDB).1 = .ok "Attendance Marked!" := by
  exact ⟨rfl, rfl⟩

/-- Claim C8 amended: the toggle defaults to fail-open.  With `DEMO_MODE`
unset (or set to the empty string) the toggle is on (`true`), the geofence
check is skipped on every submission, and an otherwise valid submission is
accepted regardless of the locations; `DEMO_MODE=false` turns validation
on. -/
theorem claim8_fail_open :
    DEMO_MODE none = true
    ∧ DEMO_MODE (some "") = true
    ∧ DEMO_MODE (some "false") = false
    ∧ (∀ {α : Type} [LinearOrderedField α] [FloorRing α]
        (dist : α → α → α → α → α) (radius : α) (now : Int)
        (uid sid rsid : String) (loc : Option (GeoPoint α)) (db : DB α)
        (s : SessionDoc α) (u : UserDoc),
        tokenCheck now sid = .okTok rsid →
        db.sessions rsid = some s → s.isActive = true →
        db.users uid = some u →
        (u.email.isNone || u.firstName.isNone || u.lastName.isNone
          || u.rollNo.isNone || u.instituteId.isNone) = false →
        (markAttendanceIndex dist (DEMO_MODE none) radius now (.valid uid)
          (some sid) loc db).1 = .ok "Attendance Marked!") := by
  refine ⟨rfl, rfl, rfl, ?_⟩
  intro α _ _ dist radius now uid sid rsid loc db s u htok hsess hact huser hfields
  have hdm : DEMO_MODE none = true := rfl
  simp [markAttendanceIndex, htok, hsess, hact, huser, hfields, hdm,
    locationCheck]

/-- Witness for amended C8: a far-away device location (distance 10⁹ m)
is accepted under the default configuration. -/
theorem claim8_fail_open_witness :
    (markAttendanceIndex (fun _ _ _ _ => (10 ^ 9 : ℚ)) (DEMO_MODE none) 200 0
      (.valid "u1") (some "S1") (some ⟨89, 179⟩) wDBLoc).1
      = .ok "Attendance Marked!" :=
  claim8_fail_open.2.2.2 (fun _ _ _ _ => (10 ^ 9 : ℚ)) 200 0 "u1" "S1" "S1"
    (some ⟨89, 179⟩) wDBLoc wSessionLoc wUser (by decide) rfl rfl rfl (by decide)

/-! ## Claim C5: progression invariants -/

/-- What one operation must do to the stored progression of one student:
preserve the invariant, never decrease XP, never drop a badge, never
decrease the attendance counter. -/
def ProgStep (u u2 : UserDoc) : Prop :=
  ProgInv u2 ∧ u.xp.getD 0 ≤ u2.xp.getD 0
  ∧ (∀ b ∈ u.badges.getD [], b ∈ u2.badges.getD [])
  ∧ u.attendanceCount.getD 0 ≤ u2.attendanceCount.getD 0

lemma progStep_self {u : UserDoc} (h : ProgInv u) : ProgStep u u :=
  ⟨h, le_refl _, fun _ hb => hb, le_refl _⟩

lemma progStep_unchanged {X : Option UserDoc} {u u2 : UserDoc}
    (hinv : ProgInv u) (h2 : X = some u) (h4 : X = some u2) : ProgStep u u2 := by
  rw [h2] at h4
  cases Option.some.inj h4
  exact progStep_self hinv

lemma progStep_upd {m : String → Option UserDoc} {u0 uid : String}
    {u u2 uR v : UserDoc} (h2 : m uid = some u) (hinv : ProgInv u)
    (hm : m u0 = some uR) (hstep : uR = u → ProgStep uR v)
    (h4 : upd m u0 v uid = some u2) : ProgStep u u2 := by
  by_cases huid : uid = u0
  · subst huid
    have he : uR = u := by rw [h2] at hm; exact (Option.some.inj hm).symm
    have hv : v = u2 := by simpa [upd] using h4
    subst hv
    exact he ▸ hstep he
  · simp only [upd, if_neg huid] at h4
    exact progStep_unchanged hinv h2 h4

/-- The XP-award-plus-badge-evaluation step preserves the progression
contract, for any non-negative delta. -/
lemma progStep_award (uR u1 : UserDoc) (d : Int) (hd : 0 ≤ d)
    (hinv : ProgInv uR)
    (hxp : u1.xp = some (uR.xp.getD 0 + d)) (hb : u1.badges = uR.badges)
    (hac : u1.attendanceCount = uR.attendanceCount) :
    ProgStep uR u1 ∧
    ProgStep uR
      (applyBadgeAward u1 (checkAndAwardBadges (uR.xp.getD 0 + d) uR.badges)) := by
  have hx1 : u1.xp.getD 0 = uR.xp.getD 0 + d := by rw [hxp]; rfl
  have hmono : uR.xp.getD 0 ≤ u1.xp.getD 0 := by omega
  have hcov1 : BadgesCovered u1 := by
    intro b hbm
    rw [hb] at hbm
    rcases hinv.2 b hbm with ⟨r, hr, hid, hth⟩
    exact ⟨r, hr, hid, le_trans hth hmono⟩
  have hstep1 : ProgStep uR u1 :=
    ⟨⟨le_trans hinv.1 hmono, hcov1⟩, hmono, by rw [hb]; exact fun _ h => h,
      by rw [hac]⟩
  refine ⟨hstep1, ?_⟩
  unfold applyBadgeAward
  by_cases hne : (checkAndAwardBadges (uR.xp.getD 0 + d) uR.badges).isEmpty
  · rw [if_pos hne]; exact hstep1
  · rw [if_neg hne]
    refine ⟨⟨le_trans hinv.1 hmono, ?_⟩, hmono, ?_, by rw [hac]⟩
    · intro b hbm
      have hbm2 : b ∈ arrayUnion (u1.badges.getD [])
          (checkAndAwardBadges (uR.xp.getD 0 + d) uR.badges) := hbm
      rcases mem_arrayUnion.mp hbm2 with hold | hnew
      · rw [hb] at hold
        rcases hinv.2 b hold with ⟨r, hr, hid, hth⟩
        exact ⟨r, hr, hid, le_trans hth hmono⟩
      · rcases mem_checkAndAwardBadges.mp hnew with ⟨r, hr, hid, hth, _⟩
        refine ⟨r, hr, hid, ?_⟩
        show r.threshold ≤ u1.xp.getD 0
        omega
    · intro b hbm
      refine mem_arrayUnion.mpr (Or.inl ?_)
      rw [hb]
      exact hbm

lemma progStep_count (uR : UserDoc) (hinv : ProgInv uR) :
    ProgStep uR
      { uR with attendanceCount := some (uR.attendanceCount.getD 0 + 1) } := by
  refine ⟨⟨hinv.1, fun b hb => hinv.2 b hb⟩, le_refl _, fun _ hb => hb, ?_⟩
  show uR.attendanceCount.getD 0 ≤ uR.attendanceCount.getD 0 + 1
  omega

lemma users_awardWrite {α : Type} (db : DB α) (u0 : String)
    (sb : Option (List String)) (u1 : UserDoc) (n : Int) :
    (awardWrite db u0 sb u1 n).users =
      upd db.users u0 (applyBadgeAward u1 (checkAndAwardBadges n sb)) := by
  unfold awardWrite
  dsimp only
  by_cases hne : (checkAndAwardBadges n sb).isEmpty
  · rw [if_pos hne]
    unfold applyBadgeAward
    rw [if_pos hne]
  · rw [if_neg hne]
    funext k
    by_cases hk : k = u0 <;> simp [upd, hk]

lemma users_endSession {α : Type} (sid : Option String) (db : DB α) :
    ((endSession sid db).2).users = db.users := by
  unfold endSession
  dsimp only
  (repeat' split) <;> rfl

lemma users_markAttendanceIndex {α : Type} [LinearOrderedField α] [FloorRing α]
    (dist : α → α → α → α → α) (demo : Bool) (radius : α) (now : Int)
    (auth : Auth) (sid : Option String) (loc : Option (GeoPoint α)) (db : DB α) :
    ((markAttendanceIndex dist demo radius now auth sid loc db).2).users = db.users
    ∨ ∃ uid0 uR, auth = .valid uid0 ∧ db.users uid0 = some uR ∧
      ((markAttendanceIndex dist demo radius now auth sid loc db).2).users =
        upd db.users uid0
          { uR with attendanceCount := some (uR.attendanceCount.getD 0 + 1) } := by
  unfold markAttendanceIndex
  dsimp only
  (repeat' split) <;> try (left; rfl)
  right
  exact ⟨_, _, rfl, by assumption, rfl⟩

lemma users_markAttendanceP001 {α : Type} [LinearOrderedField α]
    (dist : α → α → α → α → α) (demo : Bool) (radius : α) (now : Int)
    (auth : Auth) (sid : Option String) (loc : Option (GeoPoint α)) (db : DB α) :
    ((markAttendanceP001 dist demo radius now auth sid loc db).2).users = db.users
    ∨ ∃ uid0 uR, auth = .valid uid0 ∧ db.users uid0 = some uR ∧
      ((markAttendanceP001 dist demo radius now auth sid loc db).2).users =
        upd db.users uid0
          (applyBadgeAward { uR with xp := some (uR.xp.getD 0 + 10) }
            (checkAndAwardBadges (uR.xp.getD 0 + 10) uR.badges)) := by
  unfold markAttendanceP001
  dsimp only
  (repeat' split) <;> try (left; rfl)
  right
  refine ⟨_, _, rfl, by assumption, ?_⟩
  rw [users_awardWrite]

lemma users_completeTask {α : Type} (now : Int) (uid0 : Option String)
    (db : DB α) :
    ((completeTask now uid0 db).2).users = db.users
    ∨ ∃ uR, db.users (uid0.getD "") = some uR ∧
      ((completeTask now uid0 db).2).users =
        upd db.users (uid0.getD "")
          (applyBadgeAward
            { uR with xp := some (uR.xp.getD 0 + 50), lastTaskTime := some now }
            (checkAndAwardBadges (uR.xp.getD 0 + 50) uR.badges)) := by
  unfold completeTask
  dsimp only
  (repeat' split) <;> try (left; rfl)
  right
  refine ⟨_, by assumption, ?_⟩
  rw [users_awardWrite]

lemma users_verifyQuickTask {α : Type} (now : Int)
    (uid0 tt pt : Option String) (xr : Option Int) (ai : Bool) (db : DB α) :
    ((verifyQuickTask now uid0 tt pt xr ai db).2).users = db.users
    ∨ ∃ uR, db.users (uid0.getD "") = some uR ∧
      ((verifyQuickTask now uid0 tt pt xr ai db).2).users =
        upd db.users (uid0.getD "")
          (applyBadgeAward
            { uR with
              xp := some (uR.xp.getD 0 + quickTaskPoints xr)
              lastQuickTaskTime := some now }
            (checkAndAwardBadges (uR.xp.getD 0 + quickTaskPoints xr) uR.badges)) := by
  unfold verifyQuickTask
  dsimp only
  (repeat' split) <;> try (left; rfl)
  right
  refine ⟨_, by assumption, ?_⟩
  rw [users_awardWrite]

lemma users_quizAttempt {α : Type} (uid0 qid : Option String)
    (score : Option Int) (db : DB α) :
    ((quizAttempt uid0 qid score db).2).users = db.users
    ∨ ∃ uR, db.users (uid0.getD "") = some uR ∧
      ((quizAttempt uid0 qid score db).2).users =
        upd db.users (uid0.getD "") { uR with xp := some (uR.xp.getD 0 + 20) } := by
  unfold quizAttempt
  dsimp only
  (repeat' split) <;> try (left; rfl)
  right
  exact ⟨_, by assumption, rfl⟩

lemma users_updateResume {α : Type} (auth : Auth) (hasResume : Bool)
    (db : DB α) :
    ((updateResume auth hasResume db).2).users = db.users
    ∨ ∃ uid0 uR, auth = .valid uid0 ∧ db.users uid0 = some uR ∧
      ((updateResume auth hasResume db).2).users =
        upd db.users uid0
          { uR with xp := some (uR.xp.getD 0 + 50), hasResumeData := true } := by
  unfold updateResume
  dsimp only
  (repeat' split) <;> try (left; rfl)
  right
  exact ⟨_, _, rfl, by assumption, rfl⟩

lemma users_submitInteractiveTask {α : Type} (uid0 : Option String)
    (passed : Bool) (db : DB α) :
    ((submitInteractiveTask uid0 passed db).2).users = db.users
    ∨ ∃ uR, db.users (uid0.getD "") = some uR ∧
      ((submitInteractiveTask uid0 passed db).2).users =
        upd db.users (uid0.getD "") { uR with xp := some (uR.xp.getD 0 + 50) } := by
  unfold submitInteractiveTask
  dsimp only
  (repeat' split) <;> try (left; rfl)
  right
  exact ⟨_, by assumption, rfl⟩

/-- A student profile at XP 100 holding the first-tier badge. -/
def wUserNovice : UserDoc :=
  { wUser with xp := some 100, badges := some ["novice"] }

/-- Database with that student. -/
def wDBNovice : DB ℚ :=
  { wDB with users := fun k => if k = "u1" then some wUserNovice else none }

/-- Counterexample to C5 as stated.  `/verifyQuickTask` feeds the
caller-supplied `xpReward` straight into the XP increment, so a request
with `xpReward = -60` against a student at XP 100 holding `novice`
succeeds, drops XP to 40 (XP decreases), keeps the badge, and leaves the
badge set no longer covered by the threshold rules at the new XP. -/
theorem claim5_xp_decrease_counterexample :
    (verifyQuickTask 0 (some "u1") (some "task")
      (some "a sufficiently long proof") (some (-60)) true wDBNovice).1
      = .ok "Verified!"
    ∧ (wDBNovice.users "u1").map UserDoc.xp = some (some 100)
    ∧ (((verifyQuickTask 0 (some "u1") (some "task")
        (some "a sufficiently long proof") (some (-60)) true wDBNovice).2.users
        "u1").map UserDoc.xp) = some (some 40)
    ∧ (((verifyQuickTask 0 (some "u1") (some "task")
        (some "a sufficiently long proof") (some (-60)) true wDBNovice).2.users
        "u1").map UserDoc.badges) = some (some ["novice"])
    ∧ ProgInv wUserNovice
    ∧ ¬(∃ r ∈ BADGE_RULES, r.id = "novice" ∧ r.threshold ≤ (40 : Int)) := by
  exact ⟨rfl, rfl, rfl, rfl, by decide, by decide⟩

/-- Claim C5 amended: starting from the initial profile (`xp = 0`,
`badges = []`), every embedded operation whose effective XP delta is
non-negative — all of them except `/verifyQuickTask` called with a
negative caller-supplied `xpReward` — preserves the progression
invariants: XP stays non-negative and never decreases, the badge set never
shrinks, the attendance counter never decreases, and held badges stay
covered by rules whose threshold is at most the current XP. -/
theorem claim5_progression_invariants :
    (∀ e f l r i, ProgInv (initialUser e f l r i))
    ∧ ∀ (op : Op ℚ) (db : DB ℚ) (uid : String) (u u2 : UserDoc),
      op.benign → db.users uid = some u → ProgInv u →
      ((applyOp op db).2).users uid = some u2 →
      ProgStep u u2 := by
  constructor
  · intro e f l r i
    refine ⟨by simp [initialUser], ?_⟩
    intro b hb
    simp [initialUser] at hb
  · intro op db uid u u2 hben h2 hinv h4
    cases op with
    | markIndex dist demo radius now auth sid loc =>
      replace h4 : ((markAttendanceIndex dist demo radius now auth sid loc
        db).2).users uid = some u2 := h4
      rcases users_markAttendanceIndex dist demo radius now auth sid loc db with
        h | ⟨uid0, uR, _, hm, h⟩
      · rw [h] at h4; exact progStep_unchanged hinv h2 h4
      · rw [h] at h4
        exact progStep_upd h2 hinv hm
          (fun he => progStep_count uR (he.symm ▸ hinv)) h4
    | markP001 dist demo radius now auth sid loc =>
      replace h4 : ((markAttendanceP001 dist demo radius now auth sid loc
        db).2).users uid = some u2 := h4
      rcases users_markAttendanceP001 dist demo radius now auth sid loc db with
        h | ⟨uid0, uR, _, hm, h⟩
      · rw [h] at h4; exact progStep_unchanged hinv h2 h4
      · rw [h] at h4
        exact progStep_upd h2 hinv hm
          (fun he => (progStep_award uR { uR with xp := some (uR.xp.getD 0 + 10) }
            10 (by norm_num) (he.symm ▸ hinv) rfl rfl rfl).2) h4
    | endSess sid =>
      replace h4 : ((endSession sid db).2).users uid = some u2 := h4
      rw [users_endSession] at h4
      exact progStep_unchanged hinv h2 h4
    | completeTsk now uid0 =>
      replace h4 : ((completeTask now uid0 db).2).users uid = some u2 := h4
      rcases users_completeTask now uid0 db with h | ⟨uR, hm, h⟩
      · rw [h] at h4; exact progStep_unchanged hinv h2 h4
      · rw [h] at h4
        exact progStep_upd h2 hinv hm
          (fun he => (progStep_award uR
            { uR with xp := some (uR.xp.getD 0 + 50), lastTaskTime := some now }
            50 (by norm_num) (he.symm ▸ hinv) rfl rfl rfl).2) h4
    | verifyQuick now uid0 tt pt xr ai =>
      have hpts : 0 ≤ quickTaskPoints xr := hben
      replace h4 : ((verifyQuickTask now uid0 tt pt xr ai db).2).users uid
        = some u2 := h4
      rcases users_verifyQuickTask now uid0 tt pt xr ai db with h | ⟨uR, hm, h⟩
      · rw [h] at h4; exact progStep_unchanged hinv h2 h4
      · rw [h] at h4
        exact progStep_upd h2 hinv hm
          (fun he => (progStep_award uR
            { uR with
              xp := some (uR.xp.getD 0 + quickTaskPoints xr)
              lastQuickTaskTime := some now }
            (quickTaskPoints xr) hpts (he.symm ▸ hinv) rfl rfl rfl).2) h4
    | quizAtt uid0 qid score =>
      replace h4 : ((quizAttempt uid0 qid score db).2).users uid = some u2 := h4
      rcases users_quizAttempt uid0 qid score db with h | ⟨uR, hm, h⟩
      · rw [h] at h4; exact progStep_unchanged hinv h2 h4
      · rw [h] at h4
        exact progStep_upd h2 hinv hm
          (fun he => (progStep_award uR { uR with xp := some (uR.xp.getD 0 + 20) }
            20 (by norm_num) (he.symm ▸ hinv) rfl rfl rfl).1) h4
    | updResume auth hasResume =>
      replace h4 : ((updateResume auth hasResume db).2).users uid = some u2 := h4
      rcases users_updateResume auth hasResume db with h | ⟨uid0, uR, _, hm, h⟩
      · rw [h] at h4; exact progStep_unchanged hinv h2 h4
      · rw [h] at h4
        exact progStep_upd h2 hinv hm
          (fun he => (progStep_award uR
            { uR with xp := some (uR.xp.getD 0 + 50), hasResumeData := true }
            50 (by norm_num) (he.symm ▸ hinv) rfl rfl rfl).1) h4
    | submitInteractive uid0 passed =>
      replace h4 : ((submitInteractiveTask uid0 passed db).2).users uid
        = some u2 := h4
      rcases users_submitInteractiveTask uid0 passed db with h | ⟨uR, hm, h⟩
      · rw [h] at h4; exact progStep_unchanged hinv h2 h4
      · rw [h] at h4
        exact progStep_upd h2 hinv hm
          (fun he => (progStep_award uR { uR with xp := some (uR.xp.getD 0 + 50) }
            50 (by norm_num) (he.symm ▸ hinv) rfl rfl rfl).1) h4

/-- Witness for amended C5: the initial profile satisfies the invariant,
and a concrete benign `completeTask` on the concrete database takes the
fresh student to XP 50 while preserving everything. -/
theorem claim5_progression_invariants_witness :
    ProgInv (initialUser none none none none none)
    ∧ ProgStep wUser { wUser with xp := some 50, lastTaskTime := some 0 } := by
  constructor
  · exact claim5_progression_invariants.1 none none none none none
  · exact claim5_progression_invariants.2 (Op.completeTsk 0 (some "u1")) wDB
      "u1" wUser { wUser with xp := some 50, lastTaskTime := some 0 }
      trivial rfl (by decide) rfl

end Acadex
